import Mathlib

/-!
Shallow embedding of the lg36 logging module (src/lg36p/lg36.py).

Python floats are carried opaquely: the timestamp of a record is represented by
the two observations the module actually makes of it, the text rendering
`str(x)` and the truncation `int(x)`.  Exceptions are modelled with
`Except`: a function that can let a Python exception escape returns
`Except String _`, and environment flags stand for the nondeterministic
failures of the outside world (a failing stdout write, a failing sqlite
call).  The sqlite store is modelled as a growing list of rows, with the
bindings the sqlite3 driver performs (Python `str` becomes TEXT, Python
`None` becomes NULL) made explicit.
-/

/-- The five severity levels of lg36 (`class LGLVL(enum.Enum)`), with the
numeric values given in the source. -/
inductive LGLVL
  | DBUG
  | INFO
  | WARN
  | ERRR
  | CRIT
deriving DecidableEq, Repr

/-- The enum member value (`LGLVL.DBUG.value = 10`, etc.). -/
def LGLVL.value : LGLVL → Nat
  | .DBUG => 10
  | .INFO => 20
  | .WARN => 30
  | .ERRR => 40
  | .CRIT => 50

/-- Model of `LGLVL.__str__`: chops `"LGLVL.DBUG"` to `"DBUG"`: the 4-letter canonical
name of the level. -/
def LGLVL.toStr : LGLVL → String
  | .DBUG => "DBUG"
  | .INFO => "INFO"
  | .WARN => "WARN"
  | .ERRR => "ERRR"
  | .CRIT => "CRIT"

/-- A Python float, carried by the two observations lg36 makes of it:
`pyRepr` is what `str(x)` yields and `pyTrunc` is `int(x)`. -/
structure PyFloat where
  pyRepr : String
  pyTrunc : Int
deriving DecidableEq, Repr

/-- The `LOG_RECORD` dataclass: the immutable dataclass generated for each log message.
`log_msg` is an `Option String` because the producer API defaults the
message to `None`. -/
structure LOG_RECORD where
  unix_time : PyFloat
  msg_lvl : LGLVL
  caller_filename : String
  caller_lineno : String
  caller_funcname : String
  log_msg : Option String
  pname : String
  pid : String
  tname : String
  tid : String
deriving DecidableEq, Repr

/-- The call-site and process/thread facts that `_mk_lgr` captures by stack
introspection and from the process/thread objects; passed explicitly here
since reflection is not embeddable. -/
structure CallCtx where
  now : PyFloat
  caller_filename : String
  caller_lineno : String
  caller_funcname : String
  pname : String
  pid : String
  tname : String
  tid : String
deriving DecidableEq, Repr

/-- Model of `_mk_lgr`: assemble the complete log record from the captured context,
the level of the producer call and the (optional) message. -/
def mk_lgr (ctx : CallCtx) (msg_lvl : LGLVL) (log_msg : Option String) : LOG_RECORD :=
  { unix_time := ctx.now
    msg_lvl := msg_lvl
    caller_filename := ctx.caller_filename
    caller_lineno := ctx.caller_lineno
    caller_funcname := ctx.caller_funcname
    log_msg := log_msg
    pname := ctx.pname
    pid := ctx.pid
    tname := ctx.tname
    tid := ctx.tid }

-- ANSI color sequences used by the stdout formatter.
def ANSI_RED : String := "\u001b[31m"
def ANSI_GREEN : String := "\u001b[32m"
def ANSI_YELLOW : String := "\u001b[33m"
def ANSI_BLUE : String := "\u001b[34m"
def ANSI_RESET : String := "\u001b[0m"

/-- Model of `os.path.basename`: the part of the path after the last slash. -/
def basename (p : String) : String := (p.splitOn "/").getLastD p

/-- Rendering of an optional string inside a Python f-string: `None`
interpolates as the text `"None"`. -/
def pyFStr : Option String → String
  | none => "None"
  | some s => s

/-- Model of `_get_stdout_msg_fmt`: build the one-line stdout rendering of a record,
`int(unix_time)|basename:lineno|msg`, decorated per level (the five
sequential if statements of the source test the five distinct levels, hence a `match`). -/
def get_stdout_msg_fmt (lgr : LOG_RECORD) : String :=
  let fbasename := basename lgr.caller_filename
  let msg_builder :=
    toString lgr.unix_time.pyTrunc ++ "|" ++ fbasename ++ ":" ++ lgr.caller_lineno
      ++ "|" ++ pyFStr lgr.log_msg
  match lgr.msg_lvl with
  | .DBUG => "DBUG|" ++ msg_builder
  | .INFO => ANSI_GREEN ++ "INFO|" ++ msg_builder ++ ANSI_RESET
  | .WARN => ANSI_BLUE ++ "WARN|" ++ msg_builder ++ ANSI_RESET
  | .ERRR => ANSI_YELLOW ++ "ERRR|" ++ msg_builder ++ ANSI_RESET
  | .CRIT => ANSI_RED ++ "CRIT|" ++ msg_builder ++ ANSI_RESET

-- ======================================================================
-- Level-string parsing (`_string_2_lglvl`)

/-- The diagnostic printed for an unrecognized level string. -/
def invalidLevelDiag : String :=
  "Invalid log level string. Must be one of DBUG, INFO, WARN, ERRR, CRIT."

/-- Model of `_string_2_lglvl`: map a level string to a level, with the exact alias
sets of the source; an unrecognized string falls back to `DBUG`.  The second
component collects the diagnostics printed to stdout. -/
def string_2_lglvl (lvl_str : String) : LGLVL × List String :=
  if lvl_str = "DBUG" ∨ lvl_str = "dbug" ∨ lvl_str = "DBG" ∨ lvl_str = "dbg"
      ∨ lvl_str = "DEBUG" ∨ lvl_str = "debug" then
    (LGLVL.DBUG, [])
  else if lvl_str = "INFO" ∨ lvl_str = "info" then
    (LGLVL.INFO, [])
  else if lvl_str = "WARN" ∨ lvl_str = "warn" ∨ lvl_str = "WARNING" ∨ lvl_str = "warning" then
    (LGLVL.WARN, [])
  else if lvl_str = "ERRR" ∨ lvl_str = "err" ∨ lvl_str = "ERROR" ∨ lvl_str = "error" then
    (LGLVL.ERRR, [])
  else if lvl_str = "CRIT" ∨ lvl_str = "crit" then
    (LGLVL.CRIT, [])
  else
    (LGLVL.DBUG, [invalidLevelDiag])

-- ======================================================================
-- The transfer queue (`queue.Queue`)

/-- Model of `queue.Queue`: the field `maxsize` as in CPython (a size cap only when positive;
`queue.Queue()` defaults it to `0`, meaning unbounded), items in FIFO
order. -/
structure PyQueue (α : Type) where
  maxsize : Int
  items : List α
deriving DecidableEq, Repr

/-- Model of `Queue.put_nowait`: raise `queue.Full` when a positive `maxsize` is
reached, otherwise append the item at the tail. -/
def put_nowait {α : Type} (q : PyQueue α) (item : α) : Except String (PyQueue α) :=
  if 0 < q.maxsize ∧ q.maxsize ≤ (q.items.length : Int) then
    .error "queue.Full"
  else
    .ok { q with items := q.items ++ [item] }

/-- Model of `Queue.get`: take the head item when one is available (`None` models the
blocking wait when the queue is empty). -/
def qget {α : Type} (q : PyQueue α) : Option (α × PyQueue α) :=
  match q.items with
  | [] => none
  | x :: xs => some (x, { q with items := xs })

/-- The queue created by `_lg36_internal_init`: `_dssq = queue.Queue()`,
i.e. empty with the default `maxsize = 0` (unbounded). -/
def lg36_mk_dssq (α : Type) : PyQueue α := { maxsize := 0, items := [] }

/-- Repeatedly `get` until the queue is empty: the order in which the single
consumer observes the queued items. -/
def drainAll {α : Type} (q : PyQueue α) : List α :=
  match h : qget q with
  | none => []
  | some (x, q') => x :: drainAll q'
termination_by q.items.length
decreasing_by
  simp only [qget] at h
  split at h
  · exact absurd h (by simp)
  · rename_i y ys heq
    rw [Option.some.injEq, Prod.mk.injEq] at h
    rw [← h.2, heq]
    simp

-- ======================================================================
-- Dispatch (`_process_lgr`) and the producer API

/-- The configuration knobs resolved at init time: the two sink-enabled
flags and the two level filters. -/
structure LgConfig where
  stdout_enabled : Bool
  dss_enabled : Bool
  stdout_filter : LGLVL
  dss_filter : LGLVL
deriving DecidableEq, Repr

/-- Nondeterminism of the outside world during dispatch: whether the
`print` call writing to stdout raises (e.g. a closed stdout). -/
structure IoEnv where
  stdout_write_fails : Bool
deriving DecidableEq, Repr

/-- The knob values hard-coded in the source: both sinks enabled, stdout
filter `"INFO"`, dss filter `"DBUG"`. -/
def sourceKnobs : LgConfig :=
  { stdout_enabled := true
    dss_enabled := true
    stdout_filter := (string_2_lglvl "INFO").1
    dss_filter := (string_2_lglvl "DBUG").1 }

/-- The dss-sink block of `_process_lgr`: when the dss sink is enabled and
the record passes the dss filter, `put_nowait` it; the call is wrapped in
`try/except`, so an enqueue failure is turned into a printed error message
(second component) and the record is dropped. -/
def dss_sink_block (cfg : LgConfig) (q : PyQueue LOG_RECORD) (lgr : LOG_RECORD) :
    PyQueue LOG_RECORD × List String :=
  if cfg.dss_enabled ∧ lgr.msg_lvl.value ≥ cfg.dss_filter.value then
    match put_nowait q lgr with
    | .ok q' => (q', [])
    | .error ex => (q, ["lg36 error: unable to write to dss queue. Exception: " ++ ex])
  else
    (q, [])

/-- Model of `_process_lgr` on an initialized module: run the stdout sink block, then
the dss sink block.  The result carries the stdout line (if one was
printed), the queue after the dss block, and the internal error messages
printed by the `except` around `put_nowait`.  The `print` of the stdout
block is NOT inside any `try`, so a failing stdout write escapes as an
exception (`.error`) and the dss block is never reached. -/
def process_lgr (env : IoEnv) (cfg : LgConfig) (q : PyQueue LOG_RECORD) (lgr : LOG_RECORD) :
    Except String (Option String × PyQueue LOG_RECORD × List String) :=
  if cfg.stdout_enabled ∧ lgr.msg_lvl.value ≥ cfg.stdout_filter.value then
    if env.stdout_write_fails then
      .error "OSError: stdout write failed"
    else
      let res := dss_sink_block cfg q lgr
      .ok (some (get_stdout_msg_fmt lgr), res.1, res.2)
  else
    let res := dss_sink_block cfg q lgr
    .ok (none, res.1, res.2)

/-- Model of `dbg`: build a DBUG record and dispatch it (message defaults to `None`). -/
def dbg (ctx : CallCtx) (env : IoEnv) (cfg : LgConfig) (q : PyQueue LOG_RECORD)
    (msg : Option String) : Except String (Option String × PyQueue LOG_RECORD × List String) :=
  process_lgr env cfg q (mk_lgr ctx LGLVL.DBUG msg)

/-- Model of `info`: build an INFO record and dispatch it. -/
def info (ctx : CallCtx) (env : IoEnv) (cfg : LgConfig) (q : PyQueue LOG_RECORD)
    (msg : Option String) : Except String (Option String × PyQueue LOG_RECORD × List String) :=
  process_lgr env cfg q (mk_lgr ctx LGLVL.INFO msg)

/-- Model of `warn`: build a WARN record and dispatch it. -/
def warn (ctx : CallCtx) (env : IoEnv) (cfg : LgConfig) (q : PyQueue LOG_RECORD)
    (msg : Option String) : Except String (Option String × PyQueue LOG_RECORD × List String) :=
  process_lgr env cfg q (mk_lgr ctx LGLVL.WARN msg)

/-- Model of `err`: build an ERRR record and dispatch it. -/
def err (ctx : CallCtx) (env : IoEnv) (cfg : LgConfig) (q : PyQueue LOG_RECORD)
    (msg : Option String) : Except String (Option String × PyQueue LOG_RECORD × List String) :=
  process_lgr env cfg q (mk_lgr ctx LGLVL.ERRR msg)

/-- Model of `crit`: build a CRIT record and dispatch it. -/
def crit (ctx : CallCtx) (env : IoEnv) (cfg : LgConfig) (q : PyQueue LOG_RECORD)
    (msg : Option String) : Except String (Option String × PyQueue LOG_RECORD × List String) :=
  process_lgr env cfg q (mk_lgr ctx LGLVL.CRIT msg)

/-- Tests for a normal (non-raising) return. -/
def isOkE {ε α : Type} : Except ε α → Bool
  | .ok _ => true
  | .error _ => false

-- ======================================================================
-- The durable store (`DATA_SINK_SERVICE`)

/-- A value stored in one sqlite cell.  The sqlite3 driver binds a Python
`str` as TEXT and Python `None` as NULL; the `mid` primary key is the only
INTEGER the module ever produces. -/
inductive SQLiteValue
  | text (s : String)
  | intVal (n : Int)
  | null
deriving DecidableEq, Repr

/-- Tests for a TEXT cell. -/
def SQLiteValue.isText : SQLiteValue → Bool
  | .text _ => true
  | _ => false

/-- One row of the `lg36` table, in the column order of `_LG36_SCHEMA`. -/
structure LG36Row where
  mid : Int
  session_id : SQLiteValue
  unix_time : SQLiteValue
  msg_lvl : SQLiteValue
  caller_filename : SQLiteValue
  caller_lineno : SQLiteValue
  caller_funcname : SQLiteValue
  pname : SQLiteValue
  pid : SQLiteValue
  tname : SQLiteValue
  tid : SQLiteValue
  log_msg : SQLiteValue
deriving DecidableEq, Repr

/-- The binding the sqlite3 driver performs on an optional string
parameter: `None` becomes NULL, a string becomes TEXT. -/
def bindOptStr : Option String → SQLiteValue
  | none => SQLiteValue.null
  | some s => SQLiteValue.text s

/-- The `DATA_SINK_SERVICE` state: its session id, the `lg36` table
contents, and the next value of the AUTOINCREMENT `mid` key (sqlite starts
it at 1). -/
structure DSSState where
  session_id : String
  next_mid : Int
  rows : List LG36Row
deriving DecidableEq, Repr

/-- A fresh `DATA_SINK_SERVICE` over an empty store with the given random
session id. -/
def mkDSS (session_id : String) : DSSState :=
  { session_id := session_id, next_mid := 1, rows := [] }

/-- Model of `DATA_SINK_SERVICE._save_lgr`: INSERT one row carrying the session id
and the fields of the record, every parameter bound as a string (`str(...)` where
the field is not already one) except `log_msg`, which is passed through and
is `None` when the message was absent; `mid` is assigned by the store. -/
def save_lgr (st : DSSState) (lgr : LOG_RECORD) : DSSState :=
  let row : LG36Row :=
    { mid := st.next_mid
      session_id := SQLiteValue.text st.session_id
      unix_time := SQLiteValue.text lgr.unix_time.pyRepr
      msg_lvl := SQLiteValue.text lgr.msg_lvl.toStr
      caller_filename := SQLiteValue.text lgr.caller_filename
      caller_lineno := SQLiteValue.text lgr.caller_lineno
      caller_funcname := SQLiteValue.text lgr.caller_funcname
      pname := SQLiteValue.text lgr.pname
      pid := SQLiteValue.text lgr.pid
      tname := SQLiteValue.text lgr.tname
      tid := SQLiteValue.text lgr.tid
      log_msg := bindOptStr lgr.log_msg }
  { st with next_mid := st.next_mid + 1, rows := st.rows ++ [row] }

/-- An item on the dss queue: a log record or a (reserved, unused) meta
request. -/
inductive DSSReq
  | lgrReq (lgr : LOG_RECORD)
  | metaReq
deriving DecidableEq, Repr

/-- Model of `DATA_SINK_SERVICE.process_req`: save a `LOG_RECORD`, ignore anything
else. -/
def process_req (st : DSSState) (req : DSSReq) : DSSState :=
  match req with
  | .lgrReq lgr => save_lgr st lgr
  | .metaReq => st

-- ======================================================================
-- The consumer loop (`_dss_entry`)

/-- Outcome of the `_dssq.get(block=True)` call of one loop iteration. -/
inductive GetOutcome
  | gotItem (req : DSSReq)
  | getRaises (msg : String)
deriving DecidableEq, Repr

/-- Outcome of one iteration of the `while True` loop of `_dss_entry`.  On
`continues`, `processed` is the request handed to `process_req` and
`binding` the value bound to `next_req` afterwards; `threadDies` is an
exception escaping the loop body (nothing in `_dss_entry` catches it, so
the daemon thread terminates). -/
inductive IterOutcome
  | continues (processed : DSSReq) (binding : Option DSSReq) (printed : List String)
  | threadDies (exc : String) (printed : List String)
deriving DecidableEq, Repr

/-- One iteration of the `_dss_entry` loop.  The `try/except` wraps ONLY the
`_dssq.get` call; `dss.process_req(req=next_req)` runs after the
`try/except`, so an exception it raises (modelled by `procRaises`)
propagates out of the loop.  When `get` raises, the except clause prints
and execution falls through to `process_req` with `next_req` still holding
its previous binding (`prev`), or unbound (`none`) on the first iteration,
which raises an unhandled `NameError`. -/
def dss_iteration (procRaises : DSSReq → Option String) (prev : Option DSSReq)
    (gv : GetOutcome) : IterOutcome :=
  match gv with
  | .gotItem req =>
      match procRaises req with
      | some e => .threadDies e []
      | none => .continues req (some req) []
  | .getRaises m =>
      let printed := ["DSS Error: " ++ m]
      match prev with
      | none => .threadDies "NameError: next_req is not bound" printed
      | some req =>
          match procRaises req with
          | some e => .threadDies e printed
          | none => .continues req (some req) printed

-- ======================================================================
-- Module-import side effect (`shutil.rmtree` at import time)

/-- The module-level statement `shutil.rmtree(_DSS_LOG_DIR,
ignore_errors=True)` executed on import: when the directory is removable it
is deleted together with any store file from earlier sessions
(`ignore_errors` silences a failed removal, leaving the contents). -/
def import_rmtree (removable : Bool) (dirStore : Option (List LG36Row)) :
    Option (List LG36Row) :=
  if removable then none else dirStore

-- ======================================================================
-- Producer interleavings over the transfer queue
-- (the concurrent hand-off of N producer threads, modelled as an arbitrary
-- scheduler choice of which producer performs the next enqueue)

/-- One step of an interleaving: the scheduled producer enqueues the next
item of its local sequence (a producer with nothing left is skipped).  The
result is the global enqueue order, each item tagged with its producer. -/
def mergeSched {n : Nat} {α : Type} : List (Fin n) → (Fin n → List α) → List (Fin n × α)
  | [], _ => []
  | p :: s, rem =>
      match rem p with
      | [] => mergeSched s rem
      | x :: xs => (p, x) :: mergeSched s (Function.update rem p xs)

/-- The subsequence of an event list contributed by producer `p`. -/
def projOf {n : Nat} {α : Type} (p : Fin n) (evs : List (Fin n × α)) : List α :=
  evs.filterMap (fun e => if e.1 = p then some e.2 else none)

/-- Perform the given enqueues in order with `put_nowait` (a failed enqueue
is dropped, as `_process_lgr` drops it; on the unbounded queue it cannot
fail). -/
def runEnqueues {α : Type} : List α → PyQueue α → PyQueue α
  | [], q => q
  | e :: es, q =>
      match put_nowait q e with
      | .ok q' => runEnqueues es q'
      | .error _ => runEnqueues es q

-- ======================================================================
-- Queue / interleaving lemmas

theorem qget_of_items_nil {α : Type} (q : PyQueue α) (h : q.items = []) : qget q = none := by
  simp [qget, h]

theorem qget_of_items_cons {α : Type} (q : PyQueue α) (x : α) (xs : List α)
    (h : q.items = x :: xs) : qget q = some (x, { q with items := xs }) := by
  simp [qget, h]

theorem drainAll_eq_items {α : Type} (q : PyQueue α) : drainAll q = q.items := by
  suffices hgen : ∀ (l : List α) (r : PyQueue α), r.items = l → drainAll r = l from
    hgen q.items q rfl
  intro l
  induction l with
  | nil =>
      intro r hl
      unfold drainAll
      split
      · rfl
      · rename_i x q' h
        rw [qget_of_items_nil r hl] at h
        exact absurd h (by simp)
  | cons x xs ih =>
      intro r hl
      unfold drainAll
      split
      · rename_i h
        rw [qget_of_items_cons r x xs hl] at h
        exact absurd h (by simp)
      · rename_i y q' h
        rw [qget_of_items_cons r x xs hl, Option.some.injEq, Prod.mk.injEq] at h
        obtain ⟨h1, h2⟩ := h
        rw [h1, ih q' (by rw [← h2])]

theorem put_nowait_unbounded {α : Type} (q : PyQueue α) (x : α) (h : q.maxsize ≤ 0) :
    put_nowait q x = .ok { q with items := q.items ++ [x] } := by
  rw [put_nowait, if_neg]
  rintro ⟨h1, -⟩
  omega

theorem runEnqueues_unbounded {α : Type} (evs : List α) :
    ∀ q : PyQueue α, q.maxsize ≤ 0 →
      runEnqueues evs q = { maxsize := q.maxsize, items := q.items ++ evs } := by
  induction evs with
  | nil => intro q h; simp [runEnqueues]
  | cons e es ih =>
      intro q h
      rw [runEnqueues, put_nowait_unbounded q e h]
      show runEnqueues es { maxsize := q.maxsize, items := q.items ++ [e] } =
        { maxsize := q.maxsize, items := q.items ++ e :: es }
      rw [ih { q with items := q.items ++ [e] } (by simpa using h)]
      simp

theorem projOf_cons {n : Nat} {α : Type} (p : Fin n) (e : Fin n × α) (evs : List (Fin n × α)) :
    projOf p (e :: evs) = if e.1 = p then e.2 :: projOf p evs else projOf p evs := by
  rw [projOf, List.filterMap_cons, projOf]
  split <;> simp_all

theorem projOf_mergeSched_empty {n : Nat} {α : Type} (p : Fin n) (s : List (Fin n)) :
    ∀ rem : Fin n → List α, rem p = [] → projOf p (mergeSched s rem) = [] := by
  induction s with
  | nil => intro rem _; rfl
  | cons p' s ih =>
      intro rem h
      rw [mergeSched]
      split
      · exact ih rem h
      · rename_i x xs heq
        have hp : ¬p' = p := by
          rintro rfl
          rw [h] at heq
          exact List.noConfusion heq
        rw [projOf_cons, if_neg hp]
        refine ih _ ?_
        rw [Function.update_noteq (fun hc => hp hc.symm) xs rem]
        exact h

theorem projOf_mergeSched {n : Nat} {α : Type} (p : Fin n) (s : List (Fin n)) :
    ∀ rem : Fin n → List α, (rem p).length ≤ s.count p →
      projOf p (mergeSched s rem) = rem p := by
  induction s with
  | nil =>
      intro rem h
      simp only [List.count_nil, Nat.le_zero, List.length_eq_zero] at h
      rw [h]
      rfl
  | cons p' s ih =>
      intro rem h
      rw [mergeSched]
      split
      · rename_i heq
        by_cases hp : p' = p
        · subst hp
          rw [heq]
          exact projOf_mergeSched_empty p' s rem heq
        · refine ih rem ?_
          simp only [List.count_cons, beq_iff_eq, hp, if_false] at h
          omega
      · rename_i x xs heq
        by_cases hp : p' = p
        · subst hp
          rw [projOf_cons, if_pos rfl]
          have hcount : (Function.update rem p' xs p').length ≤ s.count p' := by
            rw [Function.update_same]
            rw [heq] at h
            simp [List.count_cons] at h
            omega
          rw [ih _ hcount, Function.update_same, heq]
        · rw [projOf_cons, if_neg hp]
          have hrem : Function.update rem p' xs p = rem p :=
            Function.update_noteq (fun hc => hp hc.symm) xs rem
          refine (ih _ ?_).trans hrem
          rw [hrem]
          simp only [List.count_cons, beq_iff_eq, hp, if_false] at h
          omega

-- ======================================================================
-- The diagnostic dump (`dump_lg36` / `_get_ro_db_conn_if_possible`)

/-- Nondeterminism of the outside world during a dump: whether `os.open` on
the db file succeeds, whether `sqlite3.connect` on the `/dev/fd` path
succeeds, and whether the SELECT succeeds. -/
structure DumpEnv where
  open_ok : Bool
  connect_ok : Bool
  query_ok : Bool
deriving DecidableEq, Repr

/-- Result of `_get_ro_db_conn_if_possible`: the connection (or the escaped
exception) plus whether the raw read-only file descriptor it opened was
opened and closed again. -/
structure RoConnResult where
  conn : Except String Unit
  fd_opened : Bool
  fd_closed : Bool
deriving Repr

/-- Model of `_get_ro_db_conn_if_possible`: first `os.open` the db file read-only, connect
through `/dev/fd`, `os.close` the descriptor.  No `try` anywhere: a failing
`os.open` escapes before the fd exists; a failing `sqlite3.connect` escapes
after `os.open` and before `os.close`, leaking the descriptor. -/
def get_ro_db_conn_if_possible (env : DumpEnv) : RoConnResult :=
  if ¬env.open_ok then
    { conn := .error "FileNotFoundError", fd_opened := false, fd_closed := false }
  else if ¬env.connect_ok then
    { conn := .error "sqlite3.OperationalError", fd_opened := true, fd_closed := false }
  else
    { conn := .ok (), fd_opened := true, fd_closed := true }

/-- Observable outcome of `dump_lg36`: whether the call returned normally
(`.ok`) or let an exception escape, whether the except clause printed an
`Error:` line, whether a connection was bound and closed, and whether the
read-only fd leaked. -/
structure DumpResult where
  outcome : Except String Unit
  printed_error : Bool
  conn_bound : Bool
  conn_closed : Bool
  fd_leaked : Bool
deriving Repr

/-- Model of `dump_lg36`: the `try` clause binds `db_conn = _get_ro_db_conn_if_possible()` and
runs the SELECT; `except` prints `Error: ...`; `finally` runs
`db_conn.close()`.  Because `db_conn` is assigned INSIDE the `try`, an
acquisition failure leaves it unbound and the `finally` clause itself
raises an unhandled `NameError`, which propagates to the caller. -/
def dump_lg36 (env : DumpEnv) : DumpResult :=
  let acq := get_ro_db_conn_if_possible env
  match acq.conn with
  | .error _ =>
      { outcome := .error "NameError: db_conn is not bound"
        printed_error := true
        conn_bound := false
        conn_closed := false
        fd_leaked := acq.fd_opened && !acq.fd_closed }
  | .ok _ =>
      if ¬env.query_ok then
        { outcome := .ok (), printed_error := true, conn_bound := true,
          conn_closed := true, fd_leaked := false }
      else
        { outcome := .ok (), printed_error := false, conn_bound := true,
          conn_closed := true, fd_leaked := false }


-- ======================================================================
-- Concrete fixtures used by witnesses and counterexamples

/-- A concrete call context (what the reflection of `_mk_lgr` captures for
one ordinary application call site). -/
def ctxW : CallCtx :=
  { now := { pyRepr := "1700000000.25", pyTrunc := 1700000000 }
    caller_filename := "/app/sample_app.py"
    caller_lineno := "42"
    caller_funcname := "main"
    pname := "MainProcess"
    pid := "1234"
    tname := "MainThread"
    tid := "5678" }

/-- A concrete DBUG record with a message. -/
def lgrW : LOG_RECORD := mk_lgr ctxW LGLVL.DBUG (some "hello")

/-- A concrete DBUG record with an absent message (`log.dbg()`). -/
def lgrNoMsgW : LOG_RECORD := mk_lgr ctxW LGLVL.DBUG none

/-- A concrete row as `_save_lgr` would have stored it in an earlier
session. -/
def rowW : LG36Row :=
  { mid := 1
    session_id := SQLiteValue.text "00aa11bb22cc"
    unix_time := SQLiteValue.text "1690000000.5"
    msg_lvl := SQLiteValue.text "INFO"
    caller_filename := SQLiteValue.text "/app/sample_app.py"
    caller_lineno := SQLiteValue.text "7"
    caller_funcname := SQLiteValue.text "boot"
    pname := SQLiteValue.text "MainProcess"
    pid := SQLiteValue.text "99"
    tname := SQLiteValue.text "MainThread"
    tid := SQLiteValue.text "100"
    log_msg := SQLiteValue.text "hi" }

/-- A full bounded queue, used to exercise the enqueue-failure path. -/
def fullQW : PyQueue LOG_RECORD := { maxsize := 1, items := [lgrW] }

-- ======================================================================
-- Claim theorems

/-- C1: for every record and each sink (stdout with its configured
threshold, durable with its configured threshold, both sinks enabled as
configured in the source), under ordinary conditions the record passes the
sink iff its level value is at least the threshold value: passing the
stdout sink means exactly that the formatted line is printed, passing the
dss sink means exactly that the record is appended to the transfer queue,
and the two thresholds act independently. -/
theorem c1_sink_filter_iff (env : IoEnv) (cfg : LgConfig) (q : PyQueue LOG_RECORD)
    (lgr : LOG_RECORD)
    (hstd : cfg.stdout_enabled = true) (hdss : cfg.dss_enabled = true)
    (hio : env.stdout_write_fails = false) (hq : q.maxsize ≤ 0) :
    ∃ out q' errs,
      process_lgr env cfg q lgr = .ok (out, q', errs) ∧ errs = [] ∧
      (out = some (get_stdout_msg_fmt lgr) ↔ lgr.msg_lvl.value ≥ cfg.stdout_filter.value) ∧
      (out = none ↔ lgr.msg_lvl.value < cfg.stdout_filter.value) ∧
      (q'.items = q.items ++ [lgr] ↔ lgr.msg_lvl.value ≥ cfg.dss_filter.value) ∧
      (q'.items = q.items ↔ lgr.msg_lvl.value < cfg.dss_filter.value) := by
  have hput := put_nowait_unbounded q lgr hq
  have hne : q.items ++ [lgr] ≠ q.items := by
    intro hcontra
    have := congrArg List.length hcontra
    simp at this
  by_cases h1 : lgr.msg_lvl.value ≥ cfg.stdout_filter.value
  · by_cases h2 : lgr.msg_lvl.value ≥ cfg.dss_filter.value
    · refine ⟨some (get_stdout_msg_fmt lgr), { q with items := q.items ++ [lgr] }, [], ?_,
        rfl, iff_of_true rfl h1, iff_of_false (by simp) (by omega),
        iff_of_true rfl h2, iff_of_false hne (by omega)⟩
      simp [process_lgr, dss_sink_block, hstd, hdss, hio, h1, h2, hput]
    · refine ⟨some (get_stdout_msg_fmt lgr), q, [], ?_,
        rfl, iff_of_true rfl h1, iff_of_false (by simp) (by omega),
        iff_of_false (fun h => hne h.symm) (by omega), iff_of_true rfl (by omega)⟩
      simp [process_lgr, dss_sink_block, hstd, hdss, hio, h1, h2, hput]
  · by_cases h2 : lgr.msg_lvl.value ≥ cfg.dss_filter.value
    · refine ⟨none, { q with items := q.items ++ [lgr] }, [], ?_,
        rfl, iff_of_false (by simp) (by omega), iff_of_true rfl (by omega),
        iff_of_true rfl h2, iff_of_false hne (by omega)⟩
      simp [process_lgr, dss_sink_block, hstd, hdss, hio, h1, h2, hput]
    · refine ⟨none, q, [], ?_,
        rfl, iff_of_false (by simp) (by omega), iff_of_true rfl (by omega),
        iff_of_false (fun h => hne h.symm) (by omega), iff_of_true rfl (by omega)⟩
      simp [process_lgr, dss_sink_block, hstd, hdss, hio, h1, h2, hput]

/-- Witness for C1: the configured source knobs (stdout INFO, dss DBUG)
and a DBUG record, which passes the dss sink but not the stdout sink. -/
theorem c1_sink_filter_iff_witness :
    ∃ out q' errs,
      process_lgr { stdout_write_fails := false } sourceKnobs (lg36_mk_dssq LOG_RECORD) lgrW
          = .ok (out, q', errs) ∧ errs = [] ∧
      (out = some (get_stdout_msg_fmt lgrW) ↔
        lgrW.msg_lvl.value ≥ sourceKnobs.stdout_filter.value) ∧
      (out = none ↔ lgrW.msg_lvl.value < sourceKnobs.stdout_filter.value) ∧
      (q'.items = (lg36_mk_dssq LOG_RECORD).items ++ [lgrW] ↔
        lgrW.msg_lvl.value ≥ sourceKnobs.dss_filter.value) ∧
      (q'.items = (lg36_mk_dssq LOG_RECORD).items ↔
        lgrW.msg_lvl.value < sourceKnobs.dss_filter.value) :=
  c1_sink_filter_iff { stdout_write_fails := false } sourceKnobs (lg36_mk_dssq LOG_RECORD) lgrW
    rfl rfl rfl (by decide)

/-- C2: the claim says an error while processing a dequeued item is
reported and the consumer loop continues.  The code refutes it: the
`try/except` of `_dss_entry` wraps only the `get`, so a `process_req`
failure (here a failing sqlite write) propagates, nothing is printed, and
the consumer thread terminates. -/
theorem c2_consumer_dies_on_process_error :
    dss_iteration (fun _ => some "sqlite3.OperationalError: disk I/O error") none
        (.gotItem (.lgrReq lgrW))
      = .threadDies "sqlite3.OperationalError: disk I/O error" [] := rfl

/-- C3: counterexample to "importing/initializing the logging module leaves
any existing store contents from earlier sessions intact": the module-level
`shutil.rmtree(_DSS_LOG_DIR)` executed on import deletes the log directory
and with it a non-empty store from an earlier session. -/
theorem c3_counterexample :
    import_rmtree true (some [rowW]) = none ∧
      some [rowW] ≠ (none : Option (List LG36Row)) :=
  ⟨rfl, by simp⟩

/-- C3 amended: within a session the core is append-only — saving a record
appends exactly one row and leaves every previously stored row in place,
and no core operation updates or deletes a row — but importing the module
removes the configured log directory when it is removable, so store
contents from earlier sessions do not survive a re-import. -/
theorem c3_amended_append_only :
    (∀ (st : DSSState) (lgr : LOG_RECORD), ∃ row, (save_lgr st lgr).rows = st.rows ++ [row]) ∧
    (∀ (st : DSSState) (req : DSSReq), ∃ newRows, (process_req st req).rows = st.rows ++ newRows) ∧
    (∀ dirStore : Option (List LG36Row), import_rmtree true dirStore = none) := by
  refine ⟨fun st lgr => ⟨_, rfl⟩, fun st req => ?_, fun dirStore => rfl⟩
  cases req with
  | lgrReq lgr => exact ⟨_, rfl⟩
  | metaReq => exact ⟨[], by simp [process_req]⟩

-- A dispatch that does not fail its stdout write returns normally, whatever
-- happens at the dss queue (the enqueue failure is caught and dropped).
theorem process_lgr_ok_of_stdout_ok (env : IoEnv) (cfg : LgConfig) (q : PyQueue LOG_RECORD)
    (lgr : LOG_RECORD) (hio : env.stdout_write_fails = false) :
    isOkE (process_lgr env cfg q lgr) = true := by
  unfold process_lgr
  split
  · rw [hio]
    simp [isOkE]
  · simp [isOkE]

/-- C4: counterexample to "any failure in dispatching the record (stdout
write, durable-sink enqueue) is caught inside the logging code and never
propagates": an `info` call whose record passes the stdout filter while the
stdout write fails raises to the application caller, because the `print` of
`_process_lgr` is outside any `try`. -/
theorem c4_counterexample :
    isOkE (info ctxW { stdout_write_fails := true } sourceKnobs (lg36_mk_dssq LOG_RECORD)
      (some "hi")) = false := by decide

/-- C4 amended: a durable-sink enqueue failure is caught inside
`_process_lgr` and never propagates — every producer call returns normally
whenever its stdout write does not fail, even on a queue where the enqueue
raises — but a failing stdout write on a record passing the stdout filter
does propagate to the caller. -/
theorem c4_amended_producer_calls (ctx : CallCtx) (env : IoEnv) (cfg : LgConfig)
    (q : PyQueue LOG_RECORD) (msg : Option String) (hio : env.stdout_write_fails = false) :
    isOkE (dbg ctx env cfg q msg) = true ∧
    isOkE (info ctx env cfg q msg) = true ∧
    isOkE (warn ctx env cfg q msg) = true ∧
    isOkE (err ctx env cfg q msg) = true ∧
    isOkE (crit ctx env cfg q msg) = true := by
  refine ⟨?_, ?_, ?_, ?_, ?_⟩ <;>
    exact process_lgr_ok_of_stdout_ok env cfg q _ hio

/-- Witness for C4 amended: all five producer calls on a FULL bounded queue
(the enqueue raises and is dropped) with a working stdout. -/
theorem c4_amended_producer_calls_witness :
    isOkE (dbg ctxW { stdout_write_fails := false } sourceKnobs fullQW (some "m")) = true ∧
    isOkE (info ctxW { stdout_write_fails := false } sourceKnobs fullQW (some "m")) = true ∧
    isOkE (warn ctxW { stdout_write_fails := false } sourceKnobs fullQW (some "m")) = true ∧
    isOkE (err ctxW { stdout_write_fails := false } sourceKnobs fullQW (some "m")) = true ∧
    isOkE (crit ctxW { stdout_write_fails := false } sourceKnobs fullQW (some "m")) = true :=
  c4_amended_producer_calls ctxW { stdout_write_fails := false } sourceKnobs fullQW (some "m") rfl

-- The alias sets accepted by `_string_2_lglvl`, level by level, and their
-- union (the full set of recognized level strings).
def lglvlAliases : LGLVL → List String
  | .DBUG => ["DBUG", "dbug", "DBG", "dbg", "DEBUG", "debug"]
  | .INFO => ["INFO", "info"]
  | .WARN => ["WARN", "warn", "WARNING", "warning"]
  | .ERRR => ["ERRR", "err", "ERROR", "error"]
  | .CRIT => ["CRIT", "crit"]

def recognizedAliases : List String :=
  ["DBUG", "dbug", "DBG", "dbg", "DEBUG", "debug", "INFO", "info",
   "WARN", "warn", "WARNING", "warning", "ERRR", "err", "ERROR", "error", "CRIT", "crit"]

/-- C5: counterexample to case-insensitive alias parsing: `"ERR"` is a case
variant of the recognized alias `"err"`, yet `_string_2_lglvl` does not map
it to ERRR — it treats it as unrecognized, emits the diagnostic and falls
back to DBUG. -/
theorem c5_counterexample :
    (string_2_lglvl "ERR").1 = LGLVL.DBUG ∧
    (string_2_lglvl "ERR").2 = [invalidLevelDiag] ∧
    LGLVL.DBUG ≠ LGLVL.ERRR := by decide

/-- C5 amended: parsing never raises and always returns one of the five
levels; the alias sets are EXACT-MATCH sets (specific all-upper and
all-lower spellings, e.g. "warn"/"WARN"/"warning"/"WARNING" but also
"err"/"ERROR" while "ERR" and mixed-case variants are not recognized); a
string in the alias set of a level maps to that level with no diagnostic, and
every other string emits exactly one diagnostic and returns DBUG. -/
theorem c5_amended_parsing (s : String) :
    (∀ lv : LGLVL, s ∈ lglvlAliases lv → string_2_lglvl s = (lv, [])) ∧
    (s ∉ recognizedAliases → string_2_lglvl s = (LGLVL.DBUG, [invalidLevelDiag])) := by
  constructor
  · intro lv hlv
    cases lv with
    | DBUG =>
        simp only [lglvlAliases, List.mem_cons, List.not_mem_nil, or_false] at hlv
        rcases hlv with rfl | rfl | rfl | rfl | rfl | rfl <;> decide
    | INFO =>
        simp only [lglvlAliases, List.mem_cons, List.not_mem_nil, or_false] at hlv
        rcases hlv with rfl | rfl <;> decide
    | WARN =>
        simp only [lglvlAliases, List.mem_cons, List.not_mem_nil, or_false] at hlv
        rcases hlv with rfl | rfl | rfl | rfl <;> decide
    | ERRR =>
        simp only [lglvlAliases, List.mem_cons, List.not_mem_nil, or_false] at hlv
        rcases hlv with rfl | rfl | rfl | rfl <;> decide
    | CRIT =>
        simp only [lglvlAliases, List.mem_cons, List.not_mem_nil, or_false] at hlv
        rcases hlv with rfl | rfl <;> decide
  · intro hns
    simp only [recognizedAliases, List.mem_cons, List.not_mem_nil, or_false, not_or] at hns
    obtain ⟨e1, e2, e3, e4, e5, e6, e7, e8, e9, e10, e11, e12, e13, e14, e15, e16, e17, e18⟩ :=
      hns
    simp [string_2_lglvl, e1, e2, e3, e4, e5, e6, e7, e8, e9, e10, e11, e12, e13, e14, e15,
      e16, e17, e18]

/-- Witness for C5 amended: the recognized alias "warning" parses to WARN
with no diagnostic; the unrecognized string "Fatal" yields DBUG and exactly
the one diagnostic. -/
theorem c5_amended_parsing_witness :
    string_2_lglvl "warning" = (LGLVL.WARN, []) ∧
    string_2_lglvl "Fatal" = (LGLVL.DBUG, [invalidLevelDiag]) :=
  ⟨(c5_amended_parsing "warning").1 LGLVL.WARN (by decide),
   (c5_amended_parsing "Fatal").2 (by decide)⟩

/-- C6: counterexample to "all values stored in text form except the
store-assigned primary key": a record with an absent message (`log.dbg()`
with no argument) stores NULL — not a TEXT value — in the `log_msg`
column. -/
theorem c6_counterexample :
    (save_lgr (mkDSS "00deadbeef11") lgrNoMsgW).rows.map LG36Row.log_msg
        = [SQLiteValue.null] ∧
    SQLiteValue.null.isText = false := by decide

/-- C6 amended: saving a record inserts exactly one row carrying exactly
the specified layout — store-assigned increasing `mid`, session id,
timestamp string, the 4-letter canonical level string, caller file, caller
line, caller function, process name, process id, thread name, thread id
and message — every value stored as TEXT except the primary key and except
the message of a record with an absent message, which is stored as NULL. -/
theorem c6_amended_row_layout (st : DSSState) (lgr : LOG_RECORD) :
    ∃ row,
      (save_lgr st lgr).rows = st.rows ++ [row] ∧
      (save_lgr st lgr).next_mid = st.next_mid + 1 ∧
      row.mid = st.next_mid ∧
      row.session_id = SQLiteValue.text st.session_id ∧
      row.unix_time = SQLiteValue.text lgr.unix_time.pyRepr ∧
      row.msg_lvl = SQLiteValue.text lgr.msg_lvl.toStr ∧
      lgr.msg_lvl.toStr.length = 4 ∧
      row.caller_filename = SQLiteValue.text lgr.caller_filename ∧
      row.caller_lineno = SQLiteValue.text lgr.caller_lineno ∧
      row.caller_funcname = SQLiteValue.text lgr.caller_funcname ∧
      row.pname = SQLiteValue.text lgr.pname ∧
      row.pid = SQLiteValue.text lgr.pid ∧
      row.tname = SQLiteValue.text lgr.tname ∧
      row.tid = SQLiteValue.text lgr.tid ∧
      (∀ m, lgr.log_msg = some m → row.log_msg = SQLiteValue.text m) ∧
      (lgr.log_msg = none → row.log_msg = SQLiteValue.null) := by
  refine ⟨_, rfl, rfl, rfl, rfl, rfl, rfl, ?_, rfl, rfl, rfl, rfl, rfl, rfl, rfl, ?_, ?_⟩
  · cases lgr.msg_lvl <;> decide
  · intro m hm
    simp [save_lgr, bindOptStr, hm]
  · intro hm
    simp [save_lgr, bindOptStr, hm]

/-- Witness for C6 amended: a concrete save of a record with an absent
message, whose row stores NULL in the message column. -/
theorem c6_amended_row_layout_witness :
    ∃ row,
      (save_lgr (mkDSS "00deadbeef11") lgrNoMsgW).rows = (mkDSS "00deadbeef11").rows ++ [row] ∧
      row.msg_lvl = SQLiteValue.text "DBUG" ∧
      row.log_msg = SQLiteValue.null := by
  obtain ⟨row, h1, -, -, -, -, hlvl, -, -, -, -, -, -, -, -, -, hnull⟩ :=
    c6_amended_row_layout (mkDSS "00deadbeef11") lgrNoMsgW
  exact ⟨row, h1, hlvl, hnull rfl⟩

/-- C7: for N producer threads each enqueueing its records in local order —
modelled by an arbitrary scheduler interleaving (`mergeSched`) of the
per-producer sequences onto the unbounded transfer queue — the single
consumer, draining the queue with `get`, observes the enqueue sequence
exactly (no lost enqueues, no duplicate dequeues) and observes the
records of each producer in the enqueue order of that producer. -/
theorem c7_per_producer_fifo {n : Nat} {α : Type} (prods : Fin n → List α)
    (sched : List (Fin n)) (hcomplete : ∀ p, (prods p).length ≤ sched.count p) :
    drainAll (runEnqueues (mergeSched sched prods) (lg36_mk_dssq (Fin n × α)))
        = mergeSched sched prods ∧
    ∀ p, projOf p (drainAll (runEnqueues (mergeSched sched prods) (lg36_mk_dssq (Fin n × α))))
        = prods p := by
  have hrun := runEnqueues_unbounded (mergeSched sched prods) (lg36_mk_dssq (Fin n × α))
    (by simp [lg36_mk_dssq])
  have hdrain :
      drainAll (runEnqueues (mergeSched sched prods) (lg36_mk_dssq (Fin n × α)))
        = mergeSched sched prods := by
    rw [hrun, drainAll_eq_items]
    simp [lg36_mk_dssq]
  refine ⟨hdrain, fun p => ?_⟩
  rw [hdrain]
  exact projOf_mergeSched p sched prods (hcomplete p)

/-- Two concrete producer threads for the C7 witness. -/
def prodsW : Fin 2 → List Nat := fun p => if p = 0 then [1, 2] else [10]

/-- A concrete scheduler interleaving for the C7 witness. -/
def schedW : List (Fin 2) := [0, 1, 0]

/-- Witness for C7: two producers, schedule interleaving them; the drained
sequence restricted to each producer equals the local order of that producer. -/
theorem c7_per_producer_fifo_witness :
    (∀ p : Fin 2, (prodsW p).length ≤ schedW.count p) ∧
    (∀ p : Fin 2,
      projOf p (drainAll (runEnqueues (mergeSched schedW prodsW) (lg36_mk_dssq (Fin 2 × Nat))))
        = prodsW p) :=
  ⟨by decide, (c7_per_producer_fifo prodsW schedW (by decide)).2⟩

/-- C8: a producer call with an absent message returns normally under
ordinary conditions, the record formats for the stdout sink (to a line
distinct from that of an empty-string message), and persists to the store
as one row whose message cell is NULL, distinguishable from the TEXT cell
of an empty-string message. -/
theorem c8_absent_message (ctx : CallCtx) (st : DSSState) (cfg : LgConfig)
    (q : PyQueue LOG_RECORD) :
    isOkE (dbg ctx { stdout_write_fails := false } cfg q none) = true ∧
    get_stdout_msg_fmt (mk_lgr ctx LGLVL.DBUG none)
        ≠ get_stdout_msg_fmt (mk_lgr ctx LGLVL.DBUG (some "")) ∧
    (∃ row, (save_lgr st (mk_lgr ctx LGLVL.DBUG none)).rows = st.rows ++ [row] ∧
      row.log_msg = SQLiteValue.null) ∧
    (∃ row, (save_lgr st (mk_lgr ctx LGLVL.DBUG (some ""))).rows = st.rows ++ [row] ∧
      row.log_msg = SQLiteValue.text "") ∧
    SQLiteValue.null ≠ SQLiteValue.text "" := by
  refine ⟨process_lgr_ok_of_stdout_ok _ cfg q _ rfl, ?_, ⟨_, rfl, rfl⟩, ⟨_, rfl, rfl⟩, by simp⟩
  intro hEq
  have hlen := congrArg String.length hEq
  simp [get_stdout_msg_fmt, mk_lgr, pyFStr] at hlen
  exact absurd hlen (by decide)

/-- C9: the claim says `dump_lg36` always releases its read handle and
completes (reporting errors) rather than propagating a failure.  The code
refutes it: with the store file absent, `os.open` raises, the except clause
prints, and then the `finally` clause executes `db_conn.close()` with
`db_conn` unbound, raising an unhandled NameError; and when
`sqlite3.connect` fails, the raw read-only descriptor opened by
`_get_ro_db_conn_if_possible` is never closed. -/
theorem c9_dump_propagates_and_leaks :
    (dump_lg36 { open_ok := false, connect_ok := true, query_ok := true }).outcome
        = .error "NameError: db_conn is not bound" ∧
    (dump_lg36 { open_ok := false, connect_ok := true, query_ok := true }).printed_error
        = true ∧
    (dump_lg36 { open_ok := true, connect_ok := false, query_ok := true }).fd_leaked = true :=
  ⟨rfl, rfl, rfl⟩

/-- C10: the queue created at init is unbounded (`maxsize = 0`), a
`put_nowait` on any unbounded queue always succeeds (preserving
unboundedness), and consequently in any normally-returning dispatch on such
a queue the catch-and-drop branch is unreachable: no internal error line is
printed and every record passing the durable-sink filter reaches the
queue. -/
theorem c10_enqueue_never_drops (env : IoEnv) (cfg : LgConfig) (q : PyQueue LOG_RECORD)
    (lgr : LOG_RECORD) (hq : q.maxsize = 0) :
    (lg36_mk_dssq LOG_RECORD).maxsize = 0 ∧
    (put_nowait q lgr = .ok { q with items := q.items ++ [lgr] } ∧
      ({ q with items := q.items ++ [lgr] } : PyQueue LOG_RECORD).maxsize = 0) ∧
    (∀ out q' errs, process_lgr env cfg q lgr = .ok (out, q', errs) →
      errs = [] ∧
      (cfg.dss_enabled = true → lgr.msg_lvl.value ≥ cfg.dss_filter.value →
        q'.items = q.items ++ [lgr])) := by
  have hq' : q.maxsize ≤ 0 := by omega
  have hput := put_nowait_unbounded q lgr hq'
  refine ⟨rfl, ⟨hput, by simpa using hq⟩, fun out q' errs hrun => ?_⟩
  have hblock : dss_sink_block cfg q lgr = (q', errs) := by
    unfold process_lgr at hrun
    split at hrun
    · split at hrun
      · exact absurd hrun (by simp)
      · simp only [Except.ok.injEq, Prod.mk.injEq] at hrun
        rw [← hrun.2.1, ← hrun.2.2]
    · simp only [Except.ok.injEq, Prod.mk.injEq] at hrun
      rw [← hrun.2.1, ← hrun.2.2]
  unfold dss_sink_block at hblock
  split at hblock
  · rename_i hcond
    rw [hput] at hblock
    simp only [Prod.mk.injEq] at hblock
    refine ⟨hblock.2.symm, fun _ _ => ?_⟩
    rw [← hblock.1]
  · rename_i hcond
    simp only [Prod.mk.injEq] at hblock
    exact ⟨hblock.2.symm, fun hdss hlvl => (hcond ⟨hdss, hlvl⟩).elim⟩

/-- Witness for C10: a passing-filter record dispatched over the freshly
created unbounded queue is enqueued with no internal error line. -/
theorem c10_enqueue_never_drops_witness :
    (lg36_mk_dssq LOG_RECORD).maxsize = 0 ∧
    (put_nowait (lg36_mk_dssq LOG_RECORD) lgrW
        = .ok { lg36_mk_dssq LOG_RECORD with items := (lg36_mk_dssq LOG_RECORD).items ++ [lgrW] } ∧
      ({ lg36_mk_dssq LOG_RECORD with
          items := (lg36_mk_dssq LOG_RECORD).items ++ [lgrW] } : PyQueue LOG_RECORD).maxsize
        = 0) ∧
    (∀ out q' errs,
      process_lgr { stdout_write_fails := false } sourceKnobs (lg36_mk_dssq LOG_RECORD) lgrW
          = .ok (out, q', errs) →
      errs = [] ∧
      (sourceKnobs.dss_enabled = true →
        lgrW.msg_lvl.value ≥ sourceKnobs.dss_filter.value →
        q'.items = (lg36_mk_dssq LOG_RECORD).items ++ [lgrW])) :=
  c10_enqueue_never_drops { stdout_write_fails := false } sourceKnobs
    (lg36_mk_dssq LOG_RECORD) lgrW rfl
